import Mathlib

/-!
Verification of the seo-article-generator pipeline core.

Shallow embedding of the repository's Python modules:
  * `modules/utils.py`            — `extract_json_from_text`, `GeminiWrapper.generate_content`
  * `modules/semantic_architect.py` — `build_brief`, `find_internal_links` (link validation)
  * `modules/serp_analyzer.py`    — `scrape_google_serp`, `_scrape_duckduckgo`,
                                    `_gemini_competitor_analysis`, `get_competitor_data`
  * `modules/pepite_finder.py`    — `find_best_keyword`
  * `modules/insight_miner.py`    — `generate_insights`
  * `modules/seo_calculator.py`   — `calculate_word_budget`, `_fallback_budget`

Network responses, the Gemini client and `json.loads` are external effects; they
are modelled as explicit oracle values (`Except` for calls that can raise).  All
string logic (stripping, slash-normalisation, substring checks, the JSON
extraction regexes) is embedded directly over `List Char`.
-/

/-- The character `{` (written via its code point to keep it out of source text). -/
def lbraceChar : Char := '\x7b'

/-- The character `}`. -/
def rbraceChar : Char := '\x7d'

/-- The backtick character. -/
def btickChar : Char := '\x60'

/-- Python `str.strip()` on a character list: drop leading and trailing whitespace.
(Python strips a slightly larger whitespace class than `Char.isWhitespace`;
the difference — vertical tab, form feed, exotic unicode spaces — does not
occur in any input considered here.) -/
def pyStripList (l : List Char) : List Char :=
  (((l.dropWhile Char.isWhitespace).reverse).dropWhile Char.isWhitespace).reverse

/-- Python `str.strip()` on strings. -/
def pyStrip (s : String) : String := ⟨pyStripList s.data⟩

/-- Python `str.rstrip(c)` for a single character `c`: drop trailing copies of `c`. -/
def rstripList (c : Char) (l : List Char) : List Char :=
  (l.reverse.dropWhile (fun x => x == c)).reverse

/-- Python `url.rstrip("/")`. -/
def rstripSlash (s : String) : String := ⟨rstripList '/' s.data⟩

/-- Python `str.lower()` (ASCII-level model). -/
def pyLower (s : String) : String := ⟨s.data.map Char.toLower⟩

/-- Python `needle in haystack` on strings: substring containment. -/
def pyIn (needle haystack : String) : Bool :=
  decide (needle.data <:+: haystack.data)

/-- Python `s[:n]` on strings. -/
def pyTake (n : Nat) (s : String) : String := ⟨s.data.take n⟩

/-- Python `sep.join(parts)`. -/
def pyJoin (sep : String) : List String → String
  | [] => ""
  | [x] => x
  | x :: xs => x ++ sep ++ pyJoin sep xs

/-- Indexed map in the style of `enumerate(..., start)`. -/
def mapWithIdx {α β : Type} (f : Nat → α → β) : Nat → List α → List β
  | _, [] => []
  | i, x :: xs => f i x :: mapWithIdx f (i + 1) xs

/-!
### `extract_json_from_text` (utils.py lines 230-241)

The Python function runs two `re.search` calls:
  1. fenced block: triple backticks, optional `json` tag, optional whitespace, then a
     *lazily* matched brace span or bracket span, optional whitespace, closing triple
     backticks (DOTALL);
  2. fallback: a *greedily* matched span from the first opening brace to the last
     closing brace in the whole text (or first opening bracket to last closing
     bracket), leftmost alternative first.
The functions below implement exactly the leftmost-match / lazy / greedy semantics
of those two regexes over character lists.
-/

/-- After a candidate closing delimiter: does the regex tail `\s*` + three
backticks match here?  (`\s*` is greedy but the following literal backtick forces
it to consume the maximal whitespace run.) -/
def ticksAfterWs (l : List Char) : Bool :=
  decide (((l.dropWhile Char.isWhitespace).take 3) = [btickChar, btickChar, btickChar])

/-- Lazy matching of `.*?` followed by the closing delimiter `closing` and then
`\s*` + three backticks: returns the shortest body (up to and including the
closing delimiter) whose suffix allows the fence to close. -/
def lazyBody (closing : Char) : List Char → Option (List Char)
  | [] => none
  | c :: rest =>
    if c = closing ∧ ticksAfterWs rest then some [c]
    else
      match lazyBody closing rest with
      | some r => some (c :: r)
      | none => none

/-- Attempt the fenced-block regex at a position directly after an opening
triple backtick: optional `json` tag, skip whitespace, then a lazily closed
brace or bracket group. -/
def fencedAt (l : List Char) : Option (List Char) :=
  let l1 := if l.take 4 = ['j', 's', 'o', 'n'] then l.drop 4 else l
  let l2 := l1.dropWhile Char.isWhitespace
  match l2 with
  | c :: rest =>
    if c = lbraceChar then
      match lazyBody rbraceChar rest with
      | some body => some (c :: body)
      | none => none
    else if c = '[' then
      match lazyBody ']' rest with
      | some body => some (c :: body)
      | none => none
    else none
  | [] => none

/-- Leftmost search for the fenced-block pattern: scan every position; at a
position starting with three backticks, try the rest of the pattern; on failure
resume scanning at the next character (as `re.search` does). -/
def fencedScan : List Char → Option (List Char)
  | [] => none
  | c :: rest =>
    if c = btickChar ∧ rest.take 2 = [btickChar, btickChar] then
      match fencedAt (rest.drop 2) with
      | some r => some r
      | none => fencedScan rest
    else fencedScan rest

/-- Keep the prefix of `l` up to and including the *last* occurrence of `c`
(the greedy `[\s\S]*` followed by the closing delimiter). -/
def takeToLast (c : Char) (l : List Char) : List Char :=
  (l.reverse.dropWhile (fun x => ¬ x = c)).reverse

/-- Leftmost search for the raw fallback pattern: the first position holding an
opening brace with a closing brace somewhere after it (first alternative), or an
opening bracket with a closing bracket after it (second alternative); the match
extends greedily to the last closing delimiter in the text. -/
def rawScan : List Char → Option (List Char)
  | [] => none
  | c :: rest =>
    if c = lbraceChar ∧ rest.contains rbraceChar then
      some (takeToLast rbraceChar (c :: rest))
    else if c = '[' ∧ rest.contains ']' then
      some (takeToLast ']' (c :: rest))
    else rawScan rest

/-- Model of `extract_json_from_text` (utils.py 230-241): fenced block first, raw span
second, `None` when neither pattern matches. -/
def extract_json_from_text (text : String) : Option String :=
  match fencedScan text.data with
  | some r => some ⟨r⟩
  | none =>
    match rawScan text.data with
    | some r => some ⟨r⟩
    | none => none

/-!
### JSON values and their serialization

A model of well-formed JSON values (numbers restricted to integers; the claims
examined here do not involve floating-point literals) together with a
serializer following Python's `json.dumps` defaults: item separator a comma and
a space, key separator a colon and a space, strings double-quoted with
backslash escaping of the quote, the backslash and common control characters.
-/

inductive Json : Type where
  | null : Json
  | bool (b : Bool) : Json
  | num (n : Int) : Json
  | str (s : String) : Json
  | arr (xs : List Json) : Json
  | obj (kvs : List (String × Json)) : Json

/-- Escape one character inside a JSON string literal. -/
def jsonEscChar (c : Char) : List Char :=
  if c = '"' ∨ c = '\\' then ['\\', c]
  else if c = '\n' then ['\\', 'n']
  else if c = '\t' then ['\\', 't']
  else if c = '\r' then ['\\', 'r']
  else [c]

/-- A double-quoted, escaped JSON string literal. -/
def jsonQuote (s : String) : String :=
  ⟨'"' :: (s.data.flatMap jsonEscChar ++ ['"'])⟩

mutual

/-- Serialize a JSON value the way `json.dumps` does by default. -/
def dumps : Json → String
  | Json.null => "null"
  | Json.bool true => "true"
  | Json.bool false => "false"
  | Json.num n => toString n
  | Json.str s => jsonQuote s
  | Json.arr xs => "[" ++ pyJoin ", " (dumpsList xs) ++ "]"
  | Json.obj kvs =>
      String.singleton lbraceChar ++ pyJoin ", " (dumpsObjList kvs)
        ++ String.singleton rbraceChar

/-- Serialize the elements of a JSON array. -/
def dumpsList : List Json → List String
  | [] => []
  | x :: xs => dumps x :: dumpsList xs

/-- Serialize the key/value pairs of a JSON object. -/
def dumpsObjList : List (String × Json) → List String
  | [] => []
  | (k, v) :: xs => (jsonQuote k ++ ": " ++ dumps v) :: dumpsObjList xs

end

/-!
### Internal-link validation (`find_internal_links`, semantic_architect.py 147-268)

`find_internal_links` asks the model for link proposals and then runs a
validation loop over the parsed proposals.  A proposal is a dict with keys
`url`, `anchor_text`, `target_section_id`, `integration_hint`; the loop
  1. accepts a candidate whose stripped URL is *exactly* in the sitemap
     (appending the candidate record unchanged),
  2. else looks the slash-stripped URL up in `{u.rstrip("/"): u}` built from the
     sitemap (last entry wins) and, on a hit, *overwrites the candidate's `url`
     field in place* with the canonical sitemap URL before appending it,
  3. else scans the sitemap in order for a URL related to the stripped candidate
     by substring containment in either direction, again overwriting `url` in
     place with the matched sitemap URL,
  4. else drops the candidate.
The Gemini call, `extract_json_from_text` and `json.loads` sit in front of the
loop; any failure among them returns `[]`.
-/

structure LinkC : Type where
  url : String
  anchor_text : String
  target_section_id : String
  integration_hint : String
deriving DecidableEq, Repr

/-- The dict comprehension `{u.rstrip("/"): u for u in sitemap_urls}` followed by
a key lookup: the *last* sitemap URL whose slash-stripped form equals `key`. -/
def strippedLookup (sitemap_urls : List String) (key : String) : Option String :=
  sitemap_urls.reverse.find? (fun u => rstripSlash u == key)

/-- One iteration of the validation loop of `find_internal_links`
(semantic_architect.py 238-266): returns the candidate record as it stands
after the iteration (reflecting the in-place `link["url"] = ...` writes) and
whether it was appended to `valid_links`. -/
def processLink (sitemap_urls : List String) (link : LinkC) : LinkC × Bool :=
  let url := pyStrip link.url
  if url = "" then (link, false)
  else if sitemap_urls.contains url then (link, true)
  else
    let url_stripped := rstripSlash url
    match strippedLookup sitemap_urls url_stripped with
    | some canonical => ({ link with url := canonical }, true)
    | none =>
      match sitemap_urls.find?
          (fun s => pyIn url_stripped s || pyIn (rstripSlash s) url_stripped) with
      | some matched => ({ link with url := matched }, true)
      | none => (link, false)

/-- The full validation loop: the `valid_links` list built by
`find_internal_links` from the parsed proposals. -/
def validate_links (sitemap_urls : List String) (raw_links : List LinkC) : List LinkC :=
  (raw_links.map (processLink sitemap_urls)).filterMap
    (fun p => if p.2 then some p.1 else none)

/-- The state of the supplied candidate records after the loop has run — the
Python loop mutates accepted candidates' `url` fields in place, so this is what
the candidate collection looks like once `find_internal_links` returns. -/
def links_after (sitemap_urls : List String) (raw_links : List LinkC) : List LinkC :=
  raw_links.map (fun l => (processLink sitemap_urls l).1)

/-- Python `len(u.rstrip("/").split("/"))`: number of `/`-separated parts. -/
def slashParts (s : String) : Nat :=
  ((rstripSlash s).data.filter (fun c => c == '/')).length + 1

/-- The candidate pool offered to the model (semantic_architect.py 164-172):
substantive URLs (path depth at least 4 parts) capped at 100, falling back to
the first 80 sitemap URLs when none qualify. -/
def candidate_urls (sitemap_urls : List String) : List String :=
  let cands := (sitemap_urls.filter (fun u => 4 ≤ slashParts u)).take 100
  if cands.isEmpty then sitemap_urls.take 80 else cands

/-- External effects of `find_internal_links`: the Gemini call (exception or
response text) and `json.loads` + `.get("internal_links", [])` on the extracted
JSON string. -/
structure LinkGenWorld : Type where
  genResult : Except String String
  loadsLinks : String → Except String (List LinkC)

/-- Model of `find_internal_links` (semantic_architect.py 147-268).  Returns the validated
links together with the number of Gemini generation calls performed.  The
prompt built from `brief`, `candidate_urls` and `keyword` only feeds the
generation oracle and is not reproduced. -/
def find_internal_links (w : LinkGenWorld) (sitemap_urls : List String) :
    List LinkC × Nat :=
  if sitemap_urls.isEmpty then ([], 0)
  else
    match w.genResult with
    | Except.error _ => ([], 1)
    | Except.ok resp =>
      let raw := pyStrip resp
      match extract_json_from_text raw with
      | none => ([], 1)
      | some json_str =>
        match w.loadsLinks json_str with
        | Except.error _ => ([], 1)
        | Except.ok raw_links => (validate_links sitemap_urls raw_links, 1)

/-!
### The SERP acquisition cascade (serp_analyzer.py)

`get_competitor_data` tries Google scraping, then DuckDuckGo scraping, then a
Gemini synthesis fallback.  HTTP traffic and HTML parsing are external: a
response is modelled by its status code, whether `_is_blocked` fires on its
body, and the record list the BeautifulSoup selectors extract from it; a raised
`requests` exception is an `Except.error`.  `scrape_page_text` catches all of
its own errors and returns a string, so it is a total oracle.  Every network
interaction is recorded in an event trace.
-/

structure CompetitorRec : Type where
  url : String
  title : String
  snippet : String
  content : String
deriving DecidableEq, Repr

/-- Outcome of the Google search request: HTTP status, the `_is_blocked` verdict
on the body, and what `_parse_google` extracts from the parsed HTML. -/
structure GoogleResp : Type where
  status : Nat
  blocked : Bool
  parsed : List CompetitorRec
deriving Repr

/-- Outcome of the DuckDuckGo search request: HTTP status and the valid result
entries (in page order) that the `div.result` selector loop can extract. -/
structure DdgResp : Type where
  status : Nat
  parsed : List CompetitorRec
deriving Repr

/-- External effects available to one `get_competitor_data` call. -/
structure SerpWorld : Type where
  googleResp : Except String GoogleResp
  ddgResp : Except String DdgResp
  pageText : String → String

inductive NetEvent : Type where
  | googleSearch : NetEvent
  | ddgSearch : NetEvent
  | pageFetch (url : String) : NetEvent
  | geminiCall : NetEvent
deriving DecidableEq, Repr

/-- Model of `scrape_google_serp` (serp_analyzer.py 105-125): always issues the search
request; on a raised exception, a non-200 status or a detected block it returns
`[]`; otherwise it fetches page content for the first `num_results` parsed
records and returns them.  Second component: the network events performed. -/
def scrape_google_serp (w : SerpWorld) (_keyword : String) (num_results : Nat) :
    List CompetitorRec × List NetEvent :=
  match w.googleResp with
  | Except.error _ => ([], [NetEvent.googleSearch])
  | Except.ok r =>
    if r.status ≠ 200 ∨ r.blocked then ([], [NetEvent.googleSearch])
    else
      let sel := r.parsed.take num_results
      (sel.map (fun c => { c with content := w.pageText c.url }),
       NetEvent.googleSearch :: sel.map (fun c => NetEvent.pageFetch c.url))

/-- Model of `_scrape_duckduckgo` (serp_analyzer.py 130-165).  The selector loop appends
a result and then breaks once `len(results) >= num_results`, so it collects
`max num_results 1` entries (one entry even when `num_results = 0`); page
content is then fetched for `results[:num_results]` only. -/
def _scrape_duckduckgo (w : SerpWorld) (_keyword : String) (num_results : Nat) :
    List CompetitorRec × List NetEvent :=
  match w.ddgResp with
  | Except.error _ => ([], [NetEvent.ddgSearch])
  | Except.ok r =>
    if r.status ≠ 200 then ([], [NetEvent.ddgSearch])
    else
      let collected := r.parsed.take (max num_results 1)
      let sel := collected.take num_results
      (sel.map (fun c => { c with content := w.pageText c.url }),
       NetEvent.ddgSearch :: sel.map (fun c => NetEvent.pageFetch c.url))

/-- One synthesized competitor entry as parsed from the Gemini JSON. -/
structure GCompetitor : Type where
  title : String
  domain : String
  main_angles : List String
  content_structure : List String
  strengths : List String
  weaknesses : List String
deriving DecidableEq, Repr

/-- The parsed payload of the Gemini competitor-analysis JSON. -/
structure GeminiAnalysisData : Type where
  competitors : List GCompetitor
  overall_gaps : List String
deriving DecidableEq, Repr

/-- External effects of `_gemini_competitor_analysis`: the generation call and
`json.loads` on the extracted JSON string. -/
structure GeminiWorld : Type where
  genResult : Except String String
  loadsAnalysis : String → Except String GeminiAnalysisData

/-- The `lines` accumulation of `_gemini_competitor_analysis`
(serp_analyzer.py 205-225). -/
def formatGeminiSummary (data : GeminiAnalysisData) : String :=
  let compLines : List (List String) :=
    mapWithIdx
      (fun i c =>
        ["### Concurrent " ++ toString i ++ " (IA): " ++ c.title,
         "Domaine : " ++ c.domain]
        ++ (if c.main_angles.isEmpty then []
            else ["Angles : " ++ pyJoin ", " c.main_angles])
        ++ (if c.content_structure.isEmpty then []
            else ["Structure : " ++ pyJoin " → " c.content_structure])
        ++ (if c.weaknesses.isEmpty then []
            else ["Lacunes à exploiter : " ++ pyJoin ", " c.weaknesses])
        ++ [""])
      1 data.competitors
  let gapLines : List String :=
    if data.overall_gaps.isEmpty then []
    else "### Opportunités globales :" :: data.overall_gaps.map (fun g => "  - " ++ g)
  pyJoin "\n"
    (["[⚡ Analyse générée par Gemini IA — scraping web bloqué]\n"]
      ++ compLines.flatten ++ gapLines)

/-- Model of `_gemini_competitor_analysis` (serp_analyzer.py 170-229): the whole body is
wrapped in `try/except`, so a raised generation call or a `json.loads` failure
degrades to an error string; a response with no extractable JSON yields the
"indisponible" string; otherwise the parsed data is formatted. -/
def _gemini_competitor_analysis (gw : GeminiWorld) : String :=
  match gw.genResult with
  | Except.error e => "Analyse Gemini échouée : " ++ e
  | Except.ok resp =>
    let raw := pyStrip resp
    match extract_json_from_text raw with
    | none => "Analyse Gemini indisponible. Réponse : " ++ pyTake 200 raw
    | some json_str =>
      match gw.loadsAnalysis json_str with
      | Except.error e => "Analyse Gemini échouée : " ++ e
      | Except.ok data => formatGeminiSummary data

/-- Model of `get_competitor_data` (serp_analyzer.py 234-259): Google, then DuckDuckGo
if Google produced nothing, then the Gemini fallback if a model was supplied,
else the static no-data message.  Returns `((records, source), events)`. -/
def get_competitor_data (w : SerpWorld) (keyword : String) (num_results : Nat)
    (gemini_model : Option GeminiWorld) :
    (List CompetitorRec × String) × List NetEvent :=
  let g := scrape_google_serp w keyword num_results
  if g.1 ≠ [] then ((g.1, "google"), g.2)
  else
    let d := _scrape_duckduckgo w keyword num_results
    if d.1 ≠ [] then ((d.1, "duckduckgo"), g.2 ++ d.2)
    else
      match gemini_model with
      | some gw =>
        (([], _gemini_competitor_analysis gw), g.2 ++ d.2 ++ [NetEvent.geminiCall])
      | none =>
        (([], "Aucune donnée concurrente disponible (scraping bloqué)."), g.2 ++ d.2)

/-!
### `GeminiWrapper.generate_content` (utils.py 58-113)

The wrapper walks a candidate-model list (requested model first, then the
remaining available models) and, per model, an attempt loop of `_retries + 1`
tries.  A raised client error is classified on its lowercased string
representation, *in this order*: model-unavailable (404/403/permission) →
next model; quota (429/resource_exhausted/quota) → a `RuntimeError` with
remediation guidance; transient overload (503/unavailable/overloaded/
temporarily) → retry the same model, falling through to the next model once
retries are exhausted; anything else → re-raised unchanged.  The client is
modelled as the sequence of outcomes of successive `generate_content` calls.
-/

/-- The model-unavailable classifier (utils.py 80). -/
def isNotFoundErr (e : String) : Bool :=
  pyIn "404" e || pyIn "not_found" e || pyIn "not found" e
    || pyIn "403" e || pyIn "permission" e

/-- The quota classifier (utils.py 85). -/
def isQuotaErr (e : String) : Bool :=
  pyIn "429" e || pyIn "resource_exhausted" e || pyIn "quota" e

/-- The transient-overload classifier (utils.py 94). -/
def isOverloadErr (e : String) : Bool :=
  pyIn "503" e || pyIn "unavailable" e || pyIn "overloaded" e
    || pyIn "temporarily" e

/-- The remediation message raised on a quota error (utils.py 86-91). -/
def quotaMessage (e : String) : String :=
  "⚠️ Quota Gemini épuisé (erreur 429).\n\n"
    ++ "Solution : active la facturation sur ton projet Google Cloud.\n"
    ++ "→ console.cloud.google.com/billing\n\n"
    ++ "Détail : " ++ pyTake 200 e

/-- How `generate_content` terminates. -/
inductive GenOutcome : Type where
  | ok (model : String) (response : String) : GenOutcome
  | quotaError (msg : String) : GenOutcome
  | otherError (msg : String) : GenOutcome
  | allFailed (lastError : Option String) : GenOutcome
deriving DecidableEq, Repr

/-- Outcome of the retry loop for one candidate model. -/
inductive ModelTry : Type where
  | success (response : String) : ModelTry
  | nextModel (err : String) : ModelTry
  | quota (err : String) : ModelTry
  | other (err : String) : ModelTry
deriving DecidableEq, Repr

/-- The inner `for attempt in range(_retries + 1)` loop of `generate_content`
for one model, structured over the number of attempts still allowed
(`attemptsLeft = _retries + 1 - attempt`, so the Python guard
`attempt < _retries` is `1 < attemptsLeft` at the current iteration).  `k` is
the index of the next client call; the second component is the call index
after the loop.  The `0` case is never reached from `generate_content`, whose
loop always allows at least one attempt. -/
def tryModelCalls (client : Nat → Except String String) (k : Nat) :
    Nat → ModelTry × Nat
  | 0 => (ModelTry.nextModel "", k)
  | attemptsLeft + 1 =>
    match client k with
    | Except.ok r => (ModelTry.success r, k + 1)
    | Except.error e =>
      let el := pyLower e
      if isNotFoundErr el then (ModelTry.nextModel e, k + 1)
      else if isQuotaErr el then (ModelTry.quota e, k + 1)
      else if isOverloadErr el then
        if 0 < attemptsLeft then tryModelCalls client (k + 1) attemptsLeft
        else (ModelTry.nextModel e, k + 1)
      else (ModelTry.other e, k + 1)

/-- The outer `for model in candidates` loop of `generate_content`. -/
def modelsLoop (client : Nat → Except String String) (k : Nat)
    (models : List String) (retries : Nat) (lastError : Option String) :
    GenOutcome × Nat :=
  match models with
  | [] => (GenOutcome.allFailed lastError, k)
  | m :: rest =>
    match tryModelCalls client k (retries + 1) with
    | (ModelTry.success r, k1) => (GenOutcome.ok m r, k1)
    | (ModelTry.nextModel e, k1) => modelsLoop client k1 rest retries (some e)
    | (ModelTry.quota e, k1) => (GenOutcome.quotaError (quotaMessage e), k1)
    | (ModelTry.other e, k1) => (GenOutcome.otherError e, k1)

/-- Model of `GeminiWrapper.generate_content` (utils.py 58-113).  Returns the outcome
and the total number of client calls performed.  The source default for
`_retries` is 2. -/
def generate_content (client : Nat → Except String String) (model_name : String)
    (available_models : List String) (retries : Nat) : GenOutcome × Nat :=
  let candidates := model_name :: available_models.filter (fun m => m ≠ model_name)
  modelsLoop client 0 candidates retries none

/-!
### Orchestrator stages and their JSON-failure behaviour

`find_best_keyword` (pepite_finder.py 136-143) and `build_brief`
(semantic_architect.py 132-142) raise on a missing or malformed JSON response;
`generate_insights` (insight_miner.py 61-79) falls back to a dict of empty
lists; `calculate_word_budget` (seo_calculator.py 75-90) falls back to
`_fallback_budget`.  Each stage takes the generation outcome (the model call is
not wrapped in `try` in any of the four, so a raised generation error
propagates) and a `json.loads` oracle for the extracted string; a stage that
raises is an `Except.error`.
-/

/-- Tail of `find_best_keyword` (pepite_finder.py 136-143): extract JSON from
the stripped response and parse it; raise `ValueError` when no JSON was found;
a `json.loads` failure propagates unguarded. -/
def find_best_keyword {α : Type} (genResult : Except String String)
    (loads : String → Except String α) : Except String α :=
  match genResult with
  | Except.error e => Except.error e
  | Except.ok resp =>
    let raw := pyStrip resp
    match extract_json_from_text raw with
    | some json_str => loads json_str
    | none =>
      Except.error
        ("Gemini n'a pas retourné un JSON valide pour la sélection du mot-clé.\nRéponse : "
          ++ pyTake 500 raw)

/-- Tail of `build_brief` (semantic_architect.py 132-142): raise `ValueError`
both when no JSON was found and when `json.loads` fails. -/
def build_brief {α : Type} (genResult : Except String String)
    (loads : String → Except String α) : Except String α :=
  match genResult with
  | Except.error e => Except.error e
  | Except.ok resp =>
    let raw := pyStrip resp
    match extract_json_from_text raw with
    | some json_str =>
      match loads json_str with
      | Except.ok brief => Except.ok brief
      | Except.error e =>
        Except.error
          ("JSON invalide dans la réponse Gemini (brief): " ++ e
            ++ "\n---\n" ++ pyTake 500 json_str)
    | none =>
      Except.error
        ("Gemini n'a pas retourné de JSON pour le brief.\nRéponse brute : "
          ++ pyTake 500 raw)

/-- The insight dict shape produced by `generate_insights`. -/
structure Insights : Type where
  people_also_ask : List String
  related_subtopics : List String
  user_problems : List String
  editorial_angles : List String
  lsi_keywords : List String
  content_gaps : List String
deriving DecidableEq, Repr

/-- The hard-coded minimal fallback of `generate_insights`
(insight_miner.py 72-79): all six lists empty. -/
def insightsFallback : Insights :=
  { people_also_ask := [], related_subtopics := [], user_problems := []
    editorial_angles := [], lsi_keywords := [], content_gaps := [] }

/-- Tail of `generate_insights` (insight_miner.py 61-79): extraction or parse
failure falls back to the empty-lists dict; only a raised generation call
propagates. -/
def generate_insights (genResult : Except String String)
    (loads : String → Except String Insights) : Except String Insights :=
  match genResult with
  | Except.error e => Except.error e
  | Except.ok resp =>
    let raw := pyStrip resp
    match extract_json_from_text raw with
    | some json_str =>
      match loads json_str with
      | Except.ok d => Except.ok d
      | Except.error _ => Except.ok insightsFallback
    | none => Except.ok insightsFallback

/-- A brief subsection as read by `_fallback_budget` (`id` may be absent from
the model-produced dict). -/
structure Subsection : Type where
  id : Option String
  h3 : String
  key_points : List String
deriving DecidableEq, Repr

/-- A brief section as read by `_fallback_budget`. -/
structure BriefSection : Type where
  id : Option String
  h2 : String
  key_points : List String
  media_suggestion : Option String
  subsections : List Subsection
deriving DecidableEq, Repr

/-- The parts of the editorial brief consumed by the budget stage. -/
structure Brief : Type where
  sections : List BriefSection
  faq : List (String × String)
deriving DecidableEq, Repr

/-- Per-section word budget entries. -/
structure SectionBudget : Type where
  h2_intro : Int
  subsections : List (String × Int)
deriving DecidableEq, Repr

/-- The word-budget dict. -/
structure WordBudget : Type where
  intro : Int
  sections : List (String × SectionBudget)
  faq : Int
  conclusion : Int
  total_calculated : Int
deriving DecidableEq, Repr

/-- A parsed model budget before the `total_calculated` patch (the key may be
absent from the model's JSON). -/
structure LoadedBudget : Type where
  intro : Int
  sections : List (String × SectionBudget)
  faq : Int
  conclusion : Int
  total_calculated : Option Int
deriving DecidableEq, Repr

/-- Model of `_fallback_budget` (seo_calculator.py 93-135).  In it, `int(target_words * 0.09)`
and friends are modelled as exact integer truncation (`Int.tdiv`, rounding
toward zero as Python's `int()` does on the nonnegative values arising here);
Python's floor division `//` is `Int.fdiv`. -/
def _fallback_budget (brief : Brief) (target_words : Int) : WordBudget :=
  let sections := brief.sections
  let faq_items : Int := brief.faq.length
  let intro_words := Int.tdiv (9 * target_words) 100
  let conclusion_words := Int.tdiv (6 * target_words) 100
  let faq_words := max (faq_items * 70) (Int.tdiv (10 * target_words) 100)
  let body_words := target_words - intro_words - conclusion_words - faq_words
  if sections.isEmpty then
    { intro := intro_words, sections := [], faq := faq_words
      conclusion := conclusion_words, total_calculated := target_words }
  else
    let per_section := Int.fdiv body_words sections.length
    let sectionEntries :=
      mapWithIdx
        (fun i s =>
          let sid := s.id.getD ("s" ++ toString (i + 1))
          let subs := s.subsections
          if subs.isEmpty then
            (sid, { h2_intro := per_section, subsections := [] : SectionBudget })
          else
            let per_sub := Int.fdiv (per_section - 100) subs.length
            let sub_budget :=
              mapWithIdx
                (fun j ss => (ss.id.getD (sid ++ "-" ++ toString (j + 1)),
                              per_sub + j * 5))
                0 subs
            (sid, { h2_intro := 100, subsections := sub_budget : SectionBudget }))
        0 sections
    { intro := intro_words, sections := sectionEntries, faq := faq_words
      conclusion := conclusion_words, total_calculated := target_words }

/-- The `total_calculated` patch of `calculate_word_budget`
(seo_calculator.py 83-84). -/
def patchTotal (b : LoadedBudget) (target_words : Int) : WordBudget :=
  { intro := b.intro, sections := b.sections, faq := b.faq
    conclusion := b.conclusion
    total_calculated := b.total_calculated.getD target_words }

/-- Tail of `calculate_word_budget` (seo_calculator.py 75-90): a parsed budget
is patched and returned; extraction or parse failure falls back to
`_fallback_budget`. -/
def calculate_word_budget (genResult : Except String String)
    (loads : String → Except String LoadedBudget) (brief : Brief)
    (target_words : Int) : Except String WordBudget :=
  match genResult with
  | Except.error e => Except.error e
  | Except.ok resp =>
    let raw := pyStrip resp
    match extract_json_from_text raw with
    | some json_str =>
      match loads json_str with
      | Except.ok budget => Except.ok (patchTotal budget target_words)
      | Except.error _ => Except.ok (_fallback_budget brief target_words)
    | none => Except.ok (_fallback_budget brief target_words)

/-!
## Helper lemmas
-/

/-- Unfolding `(s ++ t).data` (definitionally the append of the data lists). -/
theorem strData_append (s t : String) : (s ++ t).data = s.data ++ t.data := rfl

/-- A string is nonempty iff its character list is. -/
theorem strNeEmpty_of_data {s : String} (h : s.data ≠ []) : s ≠ "" := by
  intro hs
  exact h (by rw [hs])

/-- Dropping while a predicate fails on every element drops nothing. -/
theorem dropWhile_eq_self_of_all {p : Char → Bool} {l : List Char}
    (h : ∀ c ∈ l, p c = false) : l.dropWhile p = l := by
  cases l with
  | nil => rfl
  | cons a t =>
    rw [List.dropWhile_cons, if_neg]
    simp [h a (List.mem_cons_self a t)]

/-- What `dropWhile` leaves is a suffix. -/
theorem dropWhile_isSuffix (p : Char → Bool) (l : List Char) :
    l.dropWhile p <:+ l :=
  ⟨l.takeWhile p, List.takeWhile_append_dropWhile p l⟩

/-- A stripped string sits inside the original between two whitespace runs. -/
theorem pyStripList_decomp (l : List Char) :
    ∃ ws1 ws2, l = ws1 ++ pyStripList l ++ ws2 ∧
      (∀ c ∈ ws1, c.isWhitespace = true) ∧ (∀ c ∈ ws2, c.isWhitespace = true) := by
  refine ⟨l.takeWhile Char.isWhitespace,
    ((l.dropWhile Char.isWhitespace).reverse.takeWhile Char.isWhitespace).reverse,
    ?_, ?_, ?_⟩
  · conv_lhs =>
      rw [← List.takeWhile_append_dropWhile (p := Char.isWhitespace) (l := l)]
    rw [List.append_assoc]
    congr 1
    conv_lhs =>
      rw [← (l.dropWhile Char.isWhitespace).reverse_reverse,
        ← List.takeWhile_append_dropWhile (p := Char.isWhitespace)
          (l := (l.dropWhile Char.isWhitespace).reverse)]
    rw [List.reverse_append]
    rfl
  · intro c hc
    exact List.mem_takeWhile_imp hc
  · intro c hc
    rw [List.mem_reverse] at hc
    exact List.mem_takeWhile_imp hc

/-- Right-stripping distributes over an append whose left part never holds the
stripped character. -/
theorem rstripList_append_left {c : Char} {l1 l2 : List Char}
    (h : ∀ x ∈ l1, x ≠ c) :
    rstripList c (l1 ++ l2) = l1 ++ rstripList c l2 := by
  unfold rstripList
  rw [List.reverse_append, List.dropWhile_append]
  have hl1 : l1.reverse.dropWhile (fun x => x == c) = l1.reverse := by
    refine dropWhile_eq_self_of_all ?_
    intro x hx
    rw [List.mem_reverse] at hx
    simp [h x hx]
  split
  · next hemp =>
    have h2 : (l2.reverse.dropWhile (fun x => x == c)) = [] := by
      simpa [List.isEmpty_iff] using hemp
    rw [hl1, h2, List.reverse_nil, List.append_nil, List.reverse_reverse]
  · rw [List.reverse_append, List.reverse_reverse]

/-- Right-stripping yields a prefix. -/
theorem rstripList_isPrefix (c : Char) (l : List Char) :
    rstripList c l <+: l := by
  have h := dropWhile_isSuffix (fun x => x == c) l.reverse
  rw [← List.reverse_prefix] at h
  simpa [rstripList] using h

/-- Right-stripping a list whose last element is not the stripped character is
the identity. -/
theorem rstripList_eq_self_of_last {c x : Char} {l1 : List Char}
    (hx : x ≠ c) : rstripList c (l1 ++ [x]) = l1 ++ [x] := by
  unfold rstripList
  rw [List.reverse_append]
  simp only [List.reverse_cons, List.reverse_nil, List.nil_append, List.singleton_append,
    List.dropWhile_cons]
  rw [if_neg (by simp [hx])]
  simp

/-- Slash-stripping the whitespace-stripped form of a string produces an infix
of the slash-stripped original. -/
theorem rstrip_strip_infix (s : String) :
    (rstripSlash (pyStrip s)).data <:+: (rstripSlash s).data := by
  obtain ⟨ws1, ws2, hdec, hws1, hws2⟩ := pyStripList_decomp s.data
  have hwslash : ∀ c : Char, c.isWhitespace = true → c ≠ '/' := by
    intro c hc hcc
    rw [hcc] at hc
    exact absurd hc (by decide)
  show (rstripList '/' (pyStrip s).data) <:+: (rstripList '/' s.data)
  have hps : (pyStrip s).data = pyStripList s.data := rfl
  rcases List.eq_nil_or_concat ws2 with h2 | ⟨ws2', x, hx⟩
  · subst h2
    rw [List.append_nil] at hdec
    conv_rhs => rw [hdec]
    rw [rstripList_append_left (fun x hx => hwslash x (hws1 x hx))]
    rw [hps]
    exact (List.suffix_append ws1 _).isInfix
  · subst hx
    rw [List.concat_eq_append] at hdec hws2
    have hxws : x ≠ '/' :=
      hwslash x (hws2 x (by simp))
    conv_rhs => rw [hdec, ← List.append_assoc]
    rw [rstripList_eq_self_of_last hxws]
    rw [hps]
    refine List.IsInfix.trans
      ((rstripList_isPrefix '/' (pyStripList s.data)).isInfix) ?_
    rw [List.append_assoc]
    exact List.infix_append ws1 (pyStripList s.data) (ws2' ++ [x])

/-- A text without backticks cannot match the fenced-block pattern. -/
theorem fencedScan_eq_none {l : List Char} (h : ∀ c ∈ l, c ≠ btickChar) :
    fencedScan l = none := by
  induction l with
  | nil => rfl
  | cons c rest ih =>
    rw [fencedScan]
    rw [if_neg]
    · exact ih (fun x hx => h x (List.mem_cons_of_mem c hx))
    · rintro ⟨h1, -⟩
      exact h c (List.mem_cons_self c rest) h1

/-- The raw scan skips a prefix containing no opening delimiter. -/
theorem rawScan_append_left {l1 l2 : List Char}
    (h : ∀ c ∈ l1, c ≠ lbraceChar ∧ c ≠ '[') :
    rawScan (l1 ++ l2) = rawScan l2 := by
  induction l1 with
  | nil => rfl
  | cons c rest ih =>
    rw [List.cons_append, rawScan]
    rw [if_neg, if_neg]
    · exact ih (fun x hx => h x (List.mem_cons_of_mem c hx))
    · rintro ⟨h1, -⟩
      exact (h c (List.mem_cons_self c rest)).2 h1
    · rintro ⟨h1, -⟩
      exact (h c (List.mem_cons_self c rest)).1 h1

/-- Cutting at the last occurrence of `c` in a list that ends with `c` followed
only by `c`-free material recovers the part up to that occurrence. -/
theorem takeToLast_append {c : Char} {l1 l2 : List Char}
    (h2 : ∀ x ∈ l2, x ≠ c) :
    takeToLast c ((l1 ++ [c]) ++ l2) = l1 ++ [c] := by
  unfold takeToLast
  rw [List.reverse_append]
  rw [List.dropWhile_append_of_pos
    (by
      intro a ha
      rw [List.mem_reverse] at ha
      simpa using h2 a ha)]
  have hrev : (l1 ++ [c]).reverse = c :: l1.reverse := by simp
  rw [hrev, List.dropWhile_cons, if_neg (by simp)]
  simp

/-- The raw scan on a brace-delimited span followed by brace-free material
returns exactly the span. -/
theorem rawScan_brace {mid l2 : List Char}
    (h2 : ∀ x ∈ l2, x ≠ rbraceChar) :
    rawScan ((lbraceChar :: (mid ++ [rbraceChar])) ++ l2) =
      some (lbraceChar :: (mid ++ [rbraceChar])) := by
  rw [List.cons_append, rawScan, if_pos]
  · congr 1
    have : lbraceChar :: (mid ++ [rbraceChar] ++ l2) =
        ((lbraceChar :: mid) ++ [rbraceChar]) ++ l2 := by simp
    rw [this, takeToLast_append h2]
    simp
  · constructor
    · rfl
    · simp [List.contains_iff_exists_mem_beq]

/-- The raw scan on a bracket-delimited span followed by bracket-free material
returns exactly the span. -/
theorem rawScan_bracket {mid l2 : List Char}
    (h2 : ∀ x ∈ l2, x ≠ ']') :
    rawScan (('[' :: (mid ++ [']'])) ++ l2) =
      some ('[' :: (mid ++ [']'])) := by
  rw [List.cons_append, rawScan, if_neg, if_pos]
  · congr 1
    have : '[' :: (mid ++ [']'] ++ l2) =
        (('[' :: mid) ++ [']']) ++ l2 := by simp
    rw [this, takeToLast_append h2]
    simp
  · constructor
    · rfl
    · simp [List.contains_iff_exists_mem_beq]
  · rintro ⟨h1, -⟩
    exact absurd h1 (by decide)

/-- Joining a list whose head is nonempty yields a nonempty string. -/
theorem pyJoin_ne_empty {sep x : String} {xs : List String}
    (hx : x.data ≠ []) : pyJoin sep (x :: xs) ≠ "" := by
  cases xs with
  | nil =>
    exact strNeEmpty_of_data hx
  | cons y ys =>
    have hstep : pyJoin sep (x :: y :: ys) = x ++ sep ++ pyJoin sep (y :: ys) := rfl
    rw [hstep]
    refine strNeEmpty_of_data ?_
    rw [strData_append, strData_append]
    intro h
    rcases List.append_eq_nil.mp (List.append_eq_nil.mp h).1 with ⟨h1, -⟩
    exact hx h1

/-- Rebuilding a string from its data is the identity. -/
theorem strMk_data (s : String) : (⟨s.data⟩ : String) = s := rfl

/-!
## Claim theorems
-/

/-- C10: for every brief and keyword (folded into the generation world), if the
supplied sitemap URL list is empty, `find_internal_links` returns the empty
list immediately and performs zero generator invocations. -/
theorem c10_empty_sitemap_short_circuit (w : LinkGenWorld) :
    find_internal_links w [] = ([], 0) := rfl

/-- C4: validating the three candidate links against the two trusted URLs
yields exactly two links carrying the canonical trusted forms, in candidate
order, and the third candidate is dropped. -/
theorem c4_concrete_validation :
    validate_links ["https://x.fr/a/b/c/", "https://x.fr/a/b/d"]
      [{ url := "https://x.fr/a/b/c", anchor_text := "ancre un",
         target_section_id := "s1", integration_hint := "h1" },
       { url := "https://x.fr/a/b/d/", anchor_text := "ancre deux",
         target_section_id := "s2", integration_hint := "h2" },
       { url := "https://x.fr/nope", anchor_text := "ancre trois",
         target_section_id := "s3", integration_hint := "h3" }] =
      [{ url := "https://x.fr/a/b/c/", anchor_text := "ancre un",
         target_section_id := "s1", integration_hint := "h1" },
       { url := "https://x.fr/a/b/d", anchor_text := "ancre deux",
         target_section_id := "s2", integration_hint := "h2" }] := by
  decide

/-- C9 counterexample: the claim that every supplied candidate record is
unchanged after validation is false — a candidate matched by the
slash-insensitive rule has its `url` field overwritten in place with the
canonical trusted form. -/
theorem c9_counterexample :
    links_after ["https://x.fr/a/b/c/"]
      [{ url := "https://x.fr/a/b/c", anchor_text := "ancre",
         target_section_id := "s1", integration_hint := "h" }] ≠
      [{ url := "https://x.fr/a/b/c", anchor_text := "ancre",
         target_section_id := "s1", integration_hint := "h" }] := by
  decide

/-- C9 amended: validation builds a new output list, and the only in-place
change ever made to a supplied candidate record is that its `url` field may be
replaced by a member of the trusted sitemap list; the anchor text, target
section and integration hint are never touched, and a candidate accepted by
exact match or rejected is left entirely unchanged. -/
theorem c9_amended_mutation_only_url (sitemap_urls : List String) (l : LinkC) :
    (processLink sitemap_urls l).1 = l ∨
    ((processLink sitemap_urls l).1.url ∈ sitemap_urls ∧
     (processLink sitemap_urls l).1.anchor_text = l.anchor_text ∧
     (processLink sitemap_urls l).1.target_section_id = l.target_section_id ∧
     (processLink sitemap_urls l).1.integration_hint = l.integration_hint) := by
  by_cases h1 : pyStrip l.url = ""
  · left
    simp [processLink, h1]
  · by_cases h2 : pyStrip l.url ∈ sitemap_urls
    · left
      simp [processLink, h1, h2]
    · rcases h3 : strippedLookup sitemap_urls (rstripSlash (pyStrip l.url))
        with _ | canonical
      · rcases h4 : sitemap_urls.find?
            (fun s => pyIn (rstripSlash (pyStrip l.url)) s
              || pyIn (rstripSlash s) (rstripSlash (pyStrip l.url)))
          with _ | matched
        · left
          simp [processLink, h1, h2, h3, h4]
        · right
          have hm := List.mem_of_find?_eq_some h4
          simp [processLink, h1, h2, h3, h4]
          exact hm
      · right
        have hm := List.mem_of_find?_eq_some h3
        rw [List.mem_reverse] at hm
        simp [processLink, h1, h2, h3]
        exact hm

/-- C6 counterexample: calling the cascade with `desired_count = 0` does not
short-circuit before any network call — with both search engines reachable it
still issues the Google search request and then the DuckDuckGo search request,
so the claim that zero search requests are performed is false. -/
theorem c6_counterexample :
    (get_competitor_data
      { googleResp := Except.ok
          { status := 200, blocked := false,
            parsed := [{ url := "https://ex.fr/a", title := "T",
                         snippet := "S", content := "" }] },
        ddgResp := Except.ok
          { status := 200,
            parsed := [{ url := "https://ex.fr/b", title := "U",
                         snippet := "V", content := "" }] },
        pageText := fun _ => "" }
      "mot" 0 none).2 = [NetEvent.googleSearch, NetEvent.ddgSearch] ∧
    ([NetEvent.googleSearch, NetEvent.ddgSearch] : List NetEvent) ≠ [] := by
  constructor
  · rfl
  · decide

/-- C6 amended: with `desired_count = 0` the cascade performs zero page
fetches (the record selections are truncated to length 0), but it still issues
the search requests — the Google search request is always in the trace;
disabling the stage at 0 is the caller's responsibility, not this
component's. -/
theorem c6_amended_zero_count_behaviour (w : SerpWorld) (gw : Option GeminiWorld)
    (kw : String) :
    (∀ u, NetEvent.pageFetch u ∉ (get_competitor_data w kw 0 gw).2) ∧
    NetEvent.googleSearch ∈ (get_competitor_data w kw 0 gw).2 := by
  have hg : scrape_google_serp w kw 0 = ([], [NetEvent.googleSearch]) := by
    unfold scrape_google_serp
    cases w.googleResp with
    | error e => rfl
    | ok r =>
      split
      · rfl
      · simp
  have hd : _scrape_duckduckgo w kw 0 = ([], [NetEvent.ddgSearch]) := by
    unfold _scrape_duckduckgo
    cases w.ddgResp with
    | error e => rfl
    | ok r =>
      split
      · rfl
      · simp
  unfold get_competitor_data
  rw [hg, hd]
  simp only [ne_eq, not_true_eq_false, if_false]
  cases gw with
  | none =>
    constructor
    · intro u
      simp
    · simp
  | some g =>
    constructor
    · intro u
      simp
    · simp

/-- C1: every link returned by the validator corresponds to a supplied
candidate that passed one of the three match rules, and its URL — after
trailing-slash normalization — is equal to, or substring-related with, some
trusted sitemap URL; a candidate failing all three rules never appears. -/
theorem c1_validator_output_trusted (sitemap_urls : List String)
    (raw_links : List LinkC) (l : LinkC)
    (hl : l ∈ validate_links sitemap_urls raw_links) :
    (∃ t ∈ sitemap_urls,
        rstripSlash l.url = rstripSlash t ∨
        (rstripSlash l.url).data <:+: t.data ∨
        (rstripSlash t).data <:+: (rstripSlash l.url).data) ∧
    ∃ c ∈ raw_links, processLink sitemap_urls c = (l, true) := by
  obtain ⟨c, hc, heq⟩ : ∃ c ∈ raw_links, processLink sitemap_urls c = (l, true) := by
    unfold validate_links at hl
    rw [List.mem_filterMap] at hl
    obtain ⟨p, hp, hpl⟩ := hl
    rw [List.mem_map] at hp
    obtain ⟨c, hc, hpc⟩ := hp
    refine ⟨c, hc, ?_⟩
    rcases p with ⟨l', b⟩
    cases b
    · simp at hpl
    · simp only [if_true] at hpl
      simp at hpl
      rw [hpc, hpl]
  refine ⟨?_, ⟨c, hc, heq⟩⟩
  by_cases h1 : pyStrip c.url = ""
  · have h0 : processLink sitemap_urls c = (c, false) := by simp [processLink, h1]
    rw [h0] at heq
    exact absurd (congrArg Prod.snd heq) (by simp)
  · by_cases h2 : pyStrip c.url ∈ sitemap_urls
    · have h0 : processLink sitemap_urls c = (c, true) := by simp [processLink, h1, h2]
      rw [h0] at heq
      have h5 : c = l := congrArg Prod.fst heq
      refine ⟨pyStrip c.url, h2, Or.inr (Or.inr ?_)⟩
      rw [← h5]
      exact rstrip_strip_infix c.url
    · rcases h3 : strippedLookup sitemap_urls (rstripSlash (pyStrip c.url))
        with _ | canonical
      · rcases h4 : sitemap_urls.find?
            (fun s => pyIn (rstripSlash (pyStrip c.url)) s
              || pyIn (rstripSlash s) (rstripSlash (pyStrip c.url)))
          with _ | matched
        · have h0 : processLink sitemap_urls c = (c, false) := by
            simp [processLink, h1, h2, h3, h4]
          rw [h0] at heq
          exact absurd (congrArg Prod.snd heq) (by simp)
        · have h0 : processLink sitemap_urls c = ({ c with url := matched }, true) := by
            simp [processLink, h1, h2, h3, h4]
          rw [h0] at heq
          have h5 : ({ c with url := matched } : LinkC) = l := congrArg Prod.fst heq
          refine ⟨matched, List.mem_of_find?_eq_some h4, Or.inl ?_⟩
          rw [← h5]
      · have h0 : processLink sitemap_urls c = ({ c with url := canonical }, true) := by
          simp [processLink, h1, h2, h3]
        rw [h0] at heq
        have h5 : ({ c with url := canonical } : LinkC) = l := congrArg Prod.fst heq
        have hm := List.mem_of_find?_eq_some h3
        rw [List.mem_reverse] at hm
        refine ⟨canonical, hm, Or.inl ?_⟩
        rw [← h5]

/-- Concrete candidate link used by the C1 witness. -/
def linkCand1 : LinkC := ⟨"https://x.fr/a/b/c", "ancre", "s1", "h"⟩

/-- Concrete validated link used by the C1 witness. -/
def linkOut1 : LinkC := ⟨"https://x.fr/a/b/c/", "ancre", "s1", "h"⟩

/-- Concrete trusted URL list used by the C1 witness. -/
def sitemap1 : List String := ["https://x.fr/a/b/c/"]

/-- Witness for C1 at a concrete sitemap and candidate list. -/
theorem c1_witness :
    linkOut1 ∈ validate_links sitemap1 [linkCand1] ∧
    ((∃ t ∈ sitemap1,
        rstripSlash linkOut1.url = rstripSlash t ∨
        (rstripSlash linkOut1.url).data <:+: t.data ∨
        (rstripSlash t).data <:+: (rstripSlash linkOut1.url).data) ∧
      ∃ c ∈ [linkCand1], processLink sitemap1 c = (linkOut1, true)) :=
  ⟨by decide, c1_validator_output_trusted _ _ _ (by decide)⟩

/-- The Google strategy either fails outright or succeeds with the parsed
records truncated to the request size. -/
theorem scrape_google_serp_eq (w : SerpWorld) (kw : String) (n : Nat) :
    scrape_google_serp w kw n = ([], [NetEvent.googleSearch]) ∨
    ∃ r, w.googleResp = Except.ok r ∧
      scrape_google_serp w kw n =
        ((r.parsed.take n).map (fun c => { c with content := w.pageText c.url }),
         NetEvent.googleSearch ::
           (r.parsed.take n).map (fun c => NetEvent.pageFetch c.url)) := by
  unfold scrape_google_serp
  cases hr : w.googleResp with
  | error e => left; rfl
  | ok r =>
    by_cases hs : r.status ≠ 200 ∨ r.blocked
    · left
      simp only [if_pos hs]
    · right
      exact ⟨r, rfl, by simp only [if_neg hs]⟩

/-- The DuckDuckGo strategy either fails outright or succeeds with the
collected records truncated to the request size. -/
theorem _scrape_duckduckgo_eq (w : SerpWorld) (kw : String) (n : Nat) :
    _scrape_duckduckgo w kw n = ([], [NetEvent.ddgSearch]) ∨
    ∃ r, w.ddgResp = Except.ok r ∧
      _scrape_duckduckgo w kw n =
        (((r.parsed.take (max n 1)).take n).map
            (fun c => { c with content := w.pageText c.url }),
         NetEvent.ddgSearch ::
           ((r.parsed.take (max n 1)).take n).map
             (fun c => NetEvent.pageFetch c.url)) := by
  unfold _scrape_duckduckgo
  cases hr : w.ddgResp with
  | error e => left; rfl
  | ok r =>
    by_cases hs : r.status ≠ 200
    · left
      simp only [if_pos hs]
    · right
      exact ⟨r, rfl, by simp only [if_neg hs]⟩

/-- Events of the Google strategy are its search request and page fetches. -/
theorem scrape_google_serp_events (w : SerpWorld) (kw : String) (n : Nat) :
    ∀ e ∈ (scrape_google_serp w kw n).2,
      e = NetEvent.googleSearch ∨ ∃ u, e = NetEvent.pageFetch u := by
  intro e he
  rcases scrape_google_serp_eq w kw n with h | ⟨r, -, h⟩ <;> rw [h] at he
  · left
    simpa using he
  · simp only [List.mem_cons, List.mem_map] at he
    rcases he with h1 | ⟨c, -, h2⟩
    · left; exact h1
    · right; exact ⟨c.url, h2.symm⟩

/-- Events of the DuckDuckGo strategy are its search request and page
fetches. -/
theorem _scrape_duckduckgo_events (w : SerpWorld) (kw : String) (n : Nat) :
    ∀ e ∈ (_scrape_duckduckgo w kw n).2,
      e = NetEvent.ddgSearch ∨ ∃ u, e = NetEvent.pageFetch u := by
  intro e he
  rcases _scrape_duckduckgo_eq w kw n with h | ⟨r, -, h⟩ <;> rw [h] at he
  · left
    simpa using he
  · simp only [List.mem_cons, List.mem_map] at he
    rcases he with h1 | ⟨c, -, h2⟩
    · left; exact h1
    · right; exact ⟨c.url, h2.symm⟩

/-- C2: if the Google strategy returns at least one record, the cascade
returns exactly those records tagged `google` and its trace holds no
DuckDuckGo search and no Gemini synthesis call; conversely the DuckDuckGo
strategy appears in the trace only when Google produced nothing, and the
Gemini step only when both scrapes produced nothing. -/
theorem c2_cascade_stop_on_first_success (w : SerpWorld) (gw : Option GeminiWorld)
    (kw : String) (n : Nat) :
    ((scrape_google_serp w kw n).1 ≠ [] →
      get_competitor_data w kw n gw =
        (((scrape_google_serp w kw n).1, "google"), (scrape_google_serp w kw n).2) ∧
      NetEvent.ddgSearch ∉ (get_competitor_data w kw n gw).2 ∧
      NetEvent.geminiCall ∉ (get_competitor_data w kw n gw).2) ∧
    (NetEvent.ddgSearch ∈ (get_competitor_data w kw n gw).2 →
      (scrape_google_serp w kw n).1 = []) ∧
    (NetEvent.geminiCall ∈ (get_competitor_data w kw n gw).2 →
      (scrape_google_serp w kw n).1 = [] ∧ (_scrape_duckduckgo w kw n).1 = []) := by
  by_cases hg : (scrape_google_serp w kw n).1 = []
  · refine ⟨fun h => absurd hg h, fun _ => hg, ?_⟩
    intro hmem
    refine ⟨hg, ?_⟩
    by_cases hd : (_scrape_duckduckgo w kw n).1 = []
    · exact hd
    · exfalso
      have htr : (get_competitor_data w kw n gw).2 =
          (scrape_google_serp w kw n).2 ++ (_scrape_duckduckgo w kw n).2 := by
        simp [get_competitor_data, hg, hd]
      rw [htr, List.mem_append] at hmem
      rcases hmem with hmem | hmem
      · rcases scrape_google_serp_events w kw n _ hmem with h | ⟨u, h⟩ <;> simp at h
      · rcases _scrape_duckduckgo_events w kw n _ hmem with h | ⟨u, h⟩ <;> simp at h
  · have hget : get_competitor_data w kw n gw =
        (((scrape_google_serp w kw n).1, "google"), (scrape_google_serp w kw n).2) := by
      simp [get_competitor_data, hg]
    refine ⟨fun _ => ⟨hget, ?_, ?_⟩, ?_, ?_⟩
    · rw [hget]
      intro hmem
      rcases scrape_google_serp_events w kw n _ hmem with h | ⟨u, h⟩ <;> simp at h
    · rw [hget]
      intro hmem
      rcases scrape_google_serp_events w kw n _ hmem with h | ⟨u, h⟩ <;> simp at h
    · rw [hget]
      intro hmem
      exact absurd ((scrape_google_serp_events w kw n _ hmem).elim
        (fun h => h) (fun ⟨u, h⟩ => by simp at h)) (by simp)
    · rw [hget]
      intro hmem
      exact absurd ((scrape_google_serp_events w kw n _ hmem).elim
        (fun h => h) (fun ⟨u, h⟩ => by simp at h)) (by simp)

/-- Concrete world for the C2 witness: Google reachable with one result. -/
def serpWorldGoogleOk : SerpWorld :=
  { googleResp := Except.ok
      { status := 200, blocked := false,
        parsed := [⟨"https://ex.fr/page", "Titre", "Extrait", ""⟩] },
    ddgResp := Except.ok { status := 200, parsed := [] },
    pageText := fun _ => "contenu" }

/-- Witness for C2: with Google succeeding, the cascade stops after the Google
strategy and its trace holds neither a DuckDuckGo search nor a Gemini call. -/
theorem c2_witness :
    (scrape_google_serp serpWorldGoogleOk "mot" 1).1 ≠ [] ∧
    (get_competitor_data serpWorldGoogleOk "mot" 1 none =
      (((scrape_google_serp serpWorldGoogleOk "mot" 1).1, "google"),
        (scrape_google_serp serpWorldGoogleOk "mot" 1).2) ∧
     NetEvent.ddgSearch ∉ (get_competitor_data serpWorldGoogleOk "mot" 1 none).2 ∧
     NetEvent.geminiCall ∉ (get_competitor_data serpWorldGoogleOk "mot" 1 none).2) :=
  ⟨by decide,
   (c2_cascade_stop_on_first_success serpWorldGoogleOk none "mot" 1).1 (by decide)⟩

/-- A raised Google request is absorbed: the strategy produces nothing. -/
theorem scrape_google_serp_error (w : SerpWorld) (kw : String) (n : Nat) (e : String)
    (h : w.googleResp = Except.error e) :
    scrape_google_serp w kw n = ([], [NetEvent.googleSearch]) := by
  unfold scrape_google_serp
  rw [h]

/-- A raised DuckDuckGo request is absorbed: the strategy produces nothing. -/
theorem _scrape_duckduckgo_error (w : SerpWorld) (kw : String) (n : Nat) (e : String)
    (h : w.ddgResp = Except.error e) :
    _scrape_duckduckgo w kw n = ([], [NetEvent.ddgSearch]) := by
  unfold _scrape_duckduckgo
  rw [h]

/-- Appending to a nonempty string stays nonempty. -/
theorem append_ne_empty_left {s t : String} (h : s.data ≠ []) : s ++ t ≠ "" := by
  refine strNeEmpty_of_data ?_
  rw [strData_append]
  intro hcontr
  exact h (List.append_eq_nil.mp hcontr).1

/-- The Gemini synthesis step never returns an empty provenance string: every
branch — raised generation call, missing JSON, parse failure, formatted
summary — yields nonempty text. -/
theorem gemini_analysis_ne_empty (gw : GeminiWorld) :
    _gemini_competitor_analysis gw ≠ "" := by
  cases hgen : gw.genResult with
  | error e =>
    have h0 : _gemini_competitor_analysis gw = "Analyse Gemini échouée : " ++ e := by
      simp [_gemini_competitor_analysis, hgen]
    rw [h0]
    exact append_ne_empty_left (by decide)
  | ok resp =>
    cases hext : extract_json_from_text (pyStrip resp) with
    | none =>
      have h0 : _gemini_competitor_analysis gw =
          "Analyse Gemini indisponible. Réponse : " ++ pyTake 200 (pyStrip resp) := by
        simp [_gemini_competitor_analysis, hgen, hext]
      rw [h0]
      exact append_ne_empty_left (by decide)
    | some json_str =>
      cases hld : gw.loadsAnalysis json_str with
      | error e =>
        have h0 : _gemini_competitor_analysis gw = "Analyse Gemini échouée : " ++ e := by
          simp [_gemini_competitor_analysis, hgen, hext, hld]
        rw [h0]
        exact append_ne_empty_left (by decide)
      | ok data =>
        have h0 : _gemini_competitor_analysis gw = formatGeminiSummary data := by
          simp [_gemini_competitor_analysis, hgen, hext, hld]
        rw [h0]
        unfold formatGeminiSummary
        exact pyJoin_ne_empty (by decide)

/-- C3: the cascade never raises — request exceptions inside a strategy are
absorbed as that strategy producing nothing, the provenance string is always
nonempty, and when both scrapes produce nothing the record list is empty
(paired with the Gemini summary or the static no-data message). -/
theorem c3_cascade_absorbs_failures (w : SerpWorld) (gw : Option GeminiWorld)
    (kw : String) (n : Nat) :
    (∀ e, w.googleResp = Except.error e → (scrape_google_serp w kw n).1 = []) ∧
    (∀ e, w.ddgResp = Except.error e → (_scrape_duckduckgo w kw n).1 = []) ∧
    (get_competitor_data w kw n gw).1.2 ≠ "" ∧
    ((scrape_google_serp w kw n).1 = [] → (_scrape_duckduckgo w kw n).1 = [] →
      (get_competitor_data w kw n gw).1.1 = []) := by
  refine ⟨?_, ?_, ?_, ?_⟩
  · intro e he
    rw [scrape_google_serp_error w kw n e he]
  · intro e he
    rw [_scrape_duckduckgo_error w kw n e he]
  · by_cases hg : (scrape_google_serp w kw n).1 = []
    · by_cases hd : (_scrape_duckduckgo w kw n).1 = []
      · cases gw with
        | none =>
          have h0 : (get_competitor_data w kw n none).1.2 =
              "Aucune donnée concurrente disponible (scraping bloqué)." := by
            simp [get_competitor_data, hg, hd]
          rw [h0]
          decide
        | some g =>
          have h0 : (get_competitor_data w kw n (some g)).1.2 =
              _gemini_competitor_analysis g := by
            simp [get_competitor_data, hg, hd]
          rw [h0]
          exact gemini_analysis_ne_empty g
      · have h0 : (get_competitor_data w kw n gw).1.2 = "duckduckgo" := by
          simp [get_competitor_data, hg, hd]
        rw [h0]
        decide
    · have h0 : (get_competitor_data w kw n gw).1.2 = "google" := by
        simp [get_competitor_data, hg]
      rw [h0]
      decide
  · intro hg hd
    cases gw with
    | none => simp [get_competitor_data, hg, hd]
    | some g => simp [get_competitor_data, hg, hd]

/-- Concrete world for the C3 witness: every strategy fails. -/
def serpWorldAllFail : SerpWorld :=
  { googleResp := Except.error "timeout",
    ddgResp := Except.error "connexion refusée",
    pageText := fun _ => "" }

/-- Concrete Gemini world for the C3 witness: the generation call raises. -/
def geminiWorldFail : GeminiWorld :=
  { genResult := Except.error "503 service unavailable",
    loadsAnalysis := fun _ => Except.error "jamais atteint" }

/-- Witness for C3: with all three strategies failing the cascade still
returns an empty record list and a nonempty provenance string. -/
theorem c3_witness :
    (scrape_google_serp serpWorldAllFail "mot" 3).1 = [] ∧
    (_scrape_duckduckgo serpWorldAllFail "mot" 3).1 = [] ∧
    (get_competitor_data serpWorldAllFail "mot" 3 (some geminiWorldFail)).1.1 = [] ∧
    (get_competitor_data serpWorldAllFail "mot" 3 (some geminiWorldFail)).1.2 ≠ "" :=
  ⟨(c3_cascade_absorbs_failures serpWorldAllFail (some geminiWorldFail) "mot" 3).1
      "timeout" rfl,
   (c3_cascade_absorbs_failures serpWorldAllFail (some geminiWorldFail) "mot" 3).2.1
      "connexion refusée" rfl,
   (c3_cascade_absorbs_failures serpWorldAllFail (some geminiWorldFail) "mot" 3).2.2.2
      ((c3_cascade_absorbs_failures serpWorldAllFail (some geminiWorldFail) "mot" 3).1
        "timeout" rfl)
      ((c3_cascade_absorbs_failures serpWorldAllFail (some geminiWorldFail) "mot" 3).2.1
        "connexion refusée" rfl),
   (c3_cascade_absorbs_failures serpWorldAllFail (some geminiWorldFail) "mot" 3).2.2.1⟩

/-- C7: when a model response yields no extractable JSON, or extractable but
malformed JSON, the keyword selector and the brief builder raise, while the
insight miner returns its empty-lists fallback and the budget allocator
returns the equal-distribution fallback budget, neither raising. -/
theorem c7_json_failure_modes {α β : Type} (resp : String)
    (loadsKw : String → Except String α) (loadsBrief : String → Except String β)
    (loadsIns : String → Except String Insights)
    (loadsBud : String → Except String LoadedBudget)
    (brief : Brief) (target_words : Int)
    (hfail : extract_json_from_text (pyStrip resp) = none ∨
      (∃ js, extract_json_from_text (pyStrip resp) = some js ∧
        (∃ e1, loadsKw js = Except.error e1) ∧
        (∃ e2, loadsBrief js = Except.error e2) ∧
        (∃ e3, loadsIns js = Except.error e3) ∧
        (∃ e4, loadsBud js = Except.error e4))) :
    (∃ m, find_best_keyword (Except.ok resp) loadsKw = Except.error m) ∧
    (∃ m, build_brief (Except.ok resp) loadsBrief = Except.error m) ∧
    generate_insights (Except.ok resp) loadsIns = Except.ok insightsFallback ∧
    calculate_word_budget (Except.ok resp) loadsBud brief target_words =
      Except.ok (_fallback_budget brief target_words) := by
  rcases hfail with hnone | ⟨js, hjs, ⟨e1, h1⟩, ⟨e2, h2⟩, ⟨e3, h3⟩, ⟨e4, h4⟩⟩
  · refine ⟨?_, ?_, ?_, ?_⟩
    · simp only [find_best_keyword, hnone]
      exact ⟨_, rfl⟩
    · simp only [build_brief, hnone]
      exact ⟨_, rfl⟩
    · simp [generate_insights, hnone]
    · simp [calculate_word_budget, hnone]
  · refine ⟨?_, ?_, ?_, ?_⟩
    · simp only [find_best_keyword, hjs, h1]
      exact ⟨e1, rfl⟩
    · simp only [build_brief, hjs, h2]
      exact ⟨_, rfl⟩
    · simp [generate_insights, hjs, h3]
    · simp [calculate_word_budget, hjs, h4]

/-- Witness for C7: a response with no JSON at all drives all four stages into
their documented failure behaviour. -/
theorem c7_witness :
    (extract_json_from_text (pyStrip "Désolé, pas de réponse structurée.") = none ∨
      (∃ js, extract_json_from_text (pyStrip "Désolé, pas de réponse structurée.")
          = some js ∧
        (∃ e1, (fun _ : String => (Except.error "boom" : Except String Nat)) js =
          Except.error e1) ∧
        (∃ e2, (fun _ : String => (Except.error "boom" : Except String Nat)) js =
          Except.error e2) ∧
        (∃ e3, (fun _ : String => (Except.error "boom" : Except String Insights)) js =
          Except.error e3) ∧
        (∃ e4, (fun _ : String => (Except.error "boom" : Except String LoadedBudget)) js
          = Except.error e4))) ∧
    ((∃ m, find_best_keyword (Except.ok "Désolé, pas de réponse structurée.")
        (fun _ : String => (Except.error "boom" : Except String Nat)) =
          Except.error m) ∧
     (∃ m, build_brief (Except.ok "Désolé, pas de réponse structurée.")
        (fun _ : String => (Except.error "boom" : Except String Nat)) =
          Except.error m) ∧
     generate_insights (Except.ok "Désolé, pas de réponse structurée.")
        (fun _ : String => (Except.error "boom" : Except String Insights)) =
          Except.ok insightsFallback ∧
     calculate_word_budget (Except.ok "Désolé, pas de réponse structurée.")
        (fun _ : String => (Except.error "boom" : Except String LoadedBudget))
        { sections := [], faq := [] } 1000 =
          Except.ok (_fallback_budget { sections := [], faq := [] } 1000)) :=
  ⟨Or.inl (by decide),
   c7_json_failure_modes "Désolé, pas de réponse structurée." _ _ _ _
     { sections := [], faq := [] } 1000 (Or.inl (by decide))⟩

/-- Concrete client for the C8 counterexample: the first call raises an error
whose text matches both the model-unavailable patterns and the quota patterns;
later calls succeed. -/
def clientMixed404Quota : Nat → Except String String := fun k =>
  if k = 0 then Except.error "Error 404: quota exceeded for this model"
  else Except.ok "réponse de secours"

/-- C8 counterexample: the claim that any client error matching the
rate-limit/quota patterns (429 / resource exhausted / quota) makes
`generate_content` raise immediately with no fallback is false — an error
matching the model-unavailable patterns as well is classified not-found first,
and the wrapper falls back to the next candidate model and returns its
response after a second call. -/
theorem c8_counterexample :
    isQuotaErr (pyLower "Error 404: quota exceeded for this model") = true ∧
    generate_content clientMixed404Quota "gemini-2.5-flash" ["gemini-2.0-flash"] 2 =
      (GenOutcome.ok "gemini-2.0-flash" "réponse de secours", 2) := by
  constructor
  · decide
  · decide

/-- C8 amended: when the first client call raises an error matching the quota
patterns and *not* matching the earlier-checked model-unavailable patterns
(404 / not found / 403 / permission), `generate_content` raises the quota
`RuntimeError` immediately after that single call — no retry of the same
model, no fallback to any other candidate — and the raised message carries the
billing remediation guidance. -/
theorem c8_amended_quota_raises_immediately (client : Nat → Except String String)
    (model_name : String) (available_models : List String) (retries : Nat)
    (e : String) (h0 : client 0 = Except.error e)
    (hq : isQuotaErr (pyLower e) = true)
    (hnf : isNotFoundErr (pyLower e) = false) :
    generate_content client model_name available_models retries =
      (GenOutcome.quotaError (quotaMessage e), 1) ∧
    pyIn "console.cloud.google.com/billing" (quotaMessage e) = true := by
  constructor
  · have htry : tryModelCalls client 0 (retries + 1) = (ModelTry.quota e, 1) := by
      rw [tryModelCalls, h0]
      simp [hq, hnf]
    unfold generate_content modelsLoop
    rw [htry]
  · unfold pyIn
    rw [decide_eq_true_iff]
    have h3 : ("console.cloud.google.com/billing").data <:+:
        ("→ console.cloud.google.com/billing\n\n").data := by decide
    refine h3.trans ?_
    have hshape : (quotaMessage e).data =
        ("⚠️ Quota Gemini épuisé (erreur 429).\n\n"
            ++ "Solution : active la facturation sur ton projet Google Cloud.\n").data
          ++ ("→ console.cloud.google.com/billing\n\n").data
          ++ ("Détail : " ++ pyTake 200 e).data := by
      simp [quotaMessage, strData_append, List.append_assoc]
    rw [hshape]
    exact List.infix_append _ _ _

/-- Concrete client for the C8 amended witness: every call raises a pure
quota error. -/
def clientQuotaOnly : Nat → Except String String :=
  fun _ => Except.error "429 RESOURCE_EXHAUSTED: quota exceeded for the project"

/-- Witness for the amended C8: a pure quota error on the first call makes the
wrapper raise after exactly one client call, with the billing guidance in the
message. -/
theorem c8_amended_witness :
    clientQuotaOnly 0 =
      Except.error "429 RESOURCE_EXHAUSTED: quota exceeded for the project" ∧
    isQuotaErr (pyLower "429 RESOURCE_EXHAUSTED: quota exceeded for the project")
      = true ∧
    isNotFoundErr (pyLower "429 RESOURCE_EXHAUSTED: quota exceeded for the project")
      = false ∧
    (generate_content clientQuotaOnly "gemini-2.5-flash" ["gemini-2.0-flash"] 2 =
      (GenOutcome.quotaError
        (quotaMessage "429 RESOURCE_EXHAUSTED: quota exceeded for the project"), 1) ∧
     pyIn "console.cloud.google.com/billing"
       (quotaMessage "429 RESOURCE_EXHAUSTED: quota exceeded for the project")
       = true) :=
  ⟨rfl, by decide, by decide,
   c8_amended_quota_raises_immediately clientQuotaOnly "gemini-2.5-flash"
     ["gemini-2.0-flash"] 2 _ rfl (by decide) (by decide)⟩

/-- C5 counterexample: the round-trip claim is false — the serialization of
the well-formed JSON value `5` embedded in plain prose yields *no* extracted
substring at all, because the extractor only ever matches brace or bracket
spans. -/
theorem c5_counterexample :
    "the answer is " ++ dumps (Json.num 5) ++ "." = "the answer is 5." ∧
    extract_json_from_text "the answer is 5." = none := by
  constructor
  · decide
  · decide

/-- Shape of a serialized object: an opening brace, the joined members, a
closing brace. -/
theorem dumps_obj_shape (kvs : List (String × Json)) :
    (dumps (Json.obj kvs)).data =
      lbraceChar :: ((pyJoin ", " (dumpsObjList kvs)).data ++ [rbraceChar]) := by
  show (String.singleton lbraceChar ++ pyJoin ", " (dumpsObjList kvs)
      ++ String.singleton rbraceChar).data = _
  rw [strData_append, strData_append]
  simp [String.singleton]

/-- Shape of a serialized array: an opening bracket, the joined elements, a
closing bracket. -/
theorem dumps_arr_shape (xs : List Json) :
    (dumps (Json.arr xs)).data =
      '[' :: ((pyJoin ", " (dumpsList xs)).data ++ [']']) := by
  show ("[" ++ pyJoin ", " (dumpsList xs) ++ "]").data = _
  rw [strData_append, strData_append]
  rfl

/-- C5 amended: extraction round-trips only under conditions the source regex
semantics force — the value is an object or array (scalar serializations are
never matched), the surrounding prose holds no opening delimiter or backtick
before the value, no closing delimiter or backtick after it, and the
serialization itself holds no backtick.  Then the extracted substring is
exactly the embedded serialization, so parsing it reproduces the value. -/
theorem c5_amended_roundtrip (j : Json) (pre post : String)
    (hj : (∃ kvs, j = Json.obj kvs) ∨ (∃ xs, j = Json.arr xs))
    (hpre : ∀ c ∈ pre.data, c ≠ lbraceChar ∧ c ≠ '[' ∧ c ≠ btickChar)
    (hpost : ∀ c ∈ post.data, c ≠ rbraceChar ∧ c ≠ ']' ∧ c ≠ btickChar)
    (hdump : ∀ c ∈ (dumps j).data, c ≠ btickChar) :
    extract_json_from_text (pre ++ dumps j ++ post) = some (dumps j) := by
  have hdata : (pre ++ dumps j ++ post).data =
      pre.data ++ ((dumps j).data ++ post.data) := by
    rw [strData_append, strData_append, List.append_assoc]
  have hfen : fencedScan (pre ++ dumps j ++ post).data = none := by
    rw [hdata]
    refine fencedScan_eq_none ?_
    intro c hc
    rcases List.mem_append.mp hc with h | h
    · exact (hpre c h).2.2
    · rcases List.mem_append.mp h with h | h
      · exact hdump c h
      · exact (hpost c h).2.2
  have hraw : rawScan (pre ++ dumps j ++ post).data = some (dumps j).data := by
    rw [hdata,
      rawScan_append_left (fun c hc => ⟨(hpre c hc).1, (hpre c hc).2.1⟩)]
    rcases hj with ⟨kvs, rfl⟩ | ⟨xs, rfl⟩
    · rw [dumps_obj_shape]
      exact rawScan_brace (fun x hx => (hpost x hx).1)
    · rw [dumps_arr_shape]
      exact rawScan_bracket (fun x hx => (hpost x hx).2.1)
  simp only [extract_json_from_text, hfen, hraw]

/-- Concrete JSON object used by the C5 amended witness. -/
def jsonSampleObj : Json := Json.obj [("a", Json.num 1)]

/-- Witness for the amended C5: a small object embedded in clean prose is
extracted exactly. -/
theorem c5_amended_witness :
    ((∃ kvs, jsonSampleObj = Json.obj kvs) ∨ (∃ xs, jsonSampleObj = Json.arr xs)) ∧
    extract_json_from_text ("voici " ++ dumps jsonSampleObj ++ " merci") =
      some (dumps jsonSampleObj) := by
  refine ⟨Or.inl ⟨_, rfl⟩, ?_⟩
  refine c5_amended_roundtrip jsonSampleObj "voici " " merci"
    (Or.inl ⟨_, rfl⟩) ?_ ?_ ?_
  · decide
  · decide
  · decide

/-- Concrete world used by the C6 amended witness. -/
def serpWorldBothOk : SerpWorld :=
  { googleResp := Except.ok
      { status := 200, blocked := false,
        parsed := [⟨"https://ex.fr/un", "A", "B", ""⟩] },
    ddgResp := Except.ok
      { status := 200, parsed := [⟨"https://ex.fr/deux", "C", "D", ""⟩] },
    pageText := fun _ => "" }

/-- Witness for the amended C6: at a concrete reachable world with
`desired_count = 0`, the Google search request is in the trace. -/
theorem c6_amended_witness :
    NetEvent.googleSearch ∈ (get_competitor_data serpWorldBothOk "mot" 0 none).2 :=
  (c6_amended_zero_count_behaviour serpWorldBothOk none "mot").2
